import Mathlib

/-!
Shallow embedding of `hammond-oven-foam/draw-templates.py`.

The script draws SVG templates of EVA foam cutouts for Hammond aluminum
cases.  All geometry in the script is done in millimeters (Python floats
holding one-decimal values); the embedding uses `ℚ` for exactness.  The
final conversion to pixel space (`mm_to_px`, applied inside `draw_line`
and `text`) is an injective affine rescale used only for file output, so
segments and text anchors are recorded here in millimeter coordinates,
exactly the arguments the source hands to `draw_line` / `drawSvg.Text`.
-/

/- Global config (`g_cases`, `g_foam_thick`, `g_dpi`, `g_fudge`). -/

structure CaseSpec where
  desc : String
  top_len : ℚ
  top_width : ℚ
  bottom_len : ℚ
  bottom_width : ℚ
  height : ℚ
  notch : ℚ
deriving DecidableEq, Repr

/-- The fixed case table `g_cases` of the script, as an association list.
Tuple format in the source: `(name, top_len, top_width, bottom_len,
bottom_width, height, notch)`. -/
def g_cases_list : List (String × CaseSpec) :=
  [ ("1590B", ⟨"Hammond 1590B", 112.4, 60.5, 110.7, 58.7, 31.1, 10⟩),
    ("1590B-tayda", ⟨"Hammond 1590B (Tayda clone)", 112.4, 60.4, 110.4, 58.7, 31.1, 10⟩),
    ("1590BB", ⟨"Hammond 1590BB", 119.9, 94.3, 117.0, 91.5, 34.1, 10⟩),
    ("1590BB-tayda", ⟨"Hammond 1590BB (Tayda clone)", 120.2, 95.0, 118.9, 93.7, 37.3, 10⟩),
    ("1590Y", ⟨"Hammond 1590Y", 92.2, 92.2, 90.0, 90.0, 41.8, 10⟩),
    ("1550P", ⟨"Hammond 1550P", 80.2, 55.0, 79.4, 54.4, 25.4, 10⟩),
    ("1590A-tayda", ⟨"Hammond 1590A (Tayda clone)", 92.4, 38.3, 91.4, 37.3, 31.1, 10⟩) ]

/-- Python dictionary lookup `g_cases[case]`, made total with `Option`. -/
def g_cases (case : String) : Option CaseSpec :=
  g_cases_list.lookup case

def g_foam_thick : ℚ := 6

/- Unit conversions. -/

def in_to_mm (inches : ℚ) : ℚ := inches * 25.4

def mm_to_in (mm : ℚ) : ℚ := mm / 25.4

/- Global state: page size in mm, pen position in mm, pen flag, and the
current drawing.  The drawing is modelled as the list of line segments
(`draw_line` calls, recorded as origin and displacement in mm) plus the
list of text anchors (`drawSvg.Text` calls, recorded as position and
content; the `align_right` flag only affects rendering and is dropped). -/

def g_size_mm : ℚ × ℚ := (in_to_mm 7.5, in_to_mm 10)

structure Segment where
  origin : ℚ × ℚ
  delta : ℚ × ℚ
deriving DecidableEq, Repr

structure DrawingState where
  size_mm : ℚ × ℚ
  position_mm : ℚ × ℚ
  pen_is_down : Bool
  segments : List Segment
  texts : List ((ℚ × ℚ) × String)
deriving DecidableEq, Repr

/-- The state at interpreter start-up: fresh drawing, pen at `(0, 0)`, up. -/
def initDrawingState : DrawingState :=
  { size_mm := g_size_mm
    position_mm := (0, 0)
    pen_is_down := false
    segments := []
    texts := [] }

/- Coordinate translation. -/

/-- `bottom()` of the source: the page height `g_size_mm[1]`. -/
def bottom : ℚ := g_size_mm.2

/- Low-level drawing functions. -/

def pen_down (s : DrawingState) : DrawingState :=
  { s with pen_is_down := true }

def pen_up (s : DrawingState) : DrawingState :=
  { s with pen_is_down := false }

/-- `draw_line(origin_x, origin_y, dx, dy)`: appends one line segment to the
drawing (the source converts these mm arguments to flipped pixel
coordinates when building the SVG element; the mm data is recorded). -/
def draw_line (origin_x origin_y dx dy : ℚ) (s : DrawingState) : DrawingState :=
  { s with segments := s.segments ++ [⟨(origin_x, origin_y), (dx, dy)⟩] }

def move (dx dy : ℚ) (s : DrawingState) : DrawingState :=
  let s1 := if s.pen_is_down then draw_line s.position_mm.1 s.position_mm.2 dx dy s else s
  { s1 with position_mm := (s.position_mm.1 + dx, s.position_mm.2 + dy) }

def warp (x y : ℚ) (s : DrawingState) : DrawingState :=
  { s with position_mm := (x, y) }

def text (content : String) (s : DrawingState) : DrawingState :=
  { s with texts := s.texts ++ [(s.position_mm, content)] }

/- High-level drawing functions. -/

def draw_box (w h : ℚ) (s : DrawingState) : DrawingState :=
  s |> pen_down |> move w 0 |> move 0 h |> move (-w) 0 |> move 0 (-h) |> pen_up

/-- The `for _ in range(n)` loop body of `draw_ruler`. -/
def ruler_boxes : ℕ → DrawingState → DrawingState
  | 0, s => s
  | n + 1, s => ruler_boxes n (s |> draw_box 10 5 |> move 10 0)

def draw_ruler (s : DrawingState) : DrawingState :=
  s |> warp 5 (bottom - 12) |> text "14cm Ruler"
    |> warp (5 + 140) (bottom - 12) |> text "github.com/hammond-foam"
    |> warp 5 (bottom - 10) |> ruler_boxes 14

/- Top panel.  Each of the panel functions in the source starts by
destructuring `g_cases[case]`; the embedding passes the destructured
`CaseSpec` value.  (The `g_cases[case]` lookup itself, whose first
occurrence on a run is inside `start_drawing`, is modelled there and in
`run_case` below.) -/

def get_top_bounds_h (c : CaseSpec) : ℚ × ℚ :=
  (c.top_len + g_foam_thick * 2, c.top_width + g_foam_thick * 2)

def draw_top_h (x y : ℚ) (c : CaseSpec) (s : DrawingState) : DrawingState :=
  s |> warp x y
    |> move (g_foam_thick + c.notch) 0
    |> pen_down
    |> move (c.top_len - c.notch - c.notch) 0
    |> move 0 (g_foam_thick + c.notch)
    |> move (g_foam_thick + c.notch) 0
    |> move 0 (c.top_width - c.notch - c.notch)
    |> move (-(g_foam_thick + c.notch)) 0
    |> move 0 (g_foam_thick + c.notch)
    |> move (-(c.top_len - c.notch - c.notch)) 0
    |> move 0 (-(g_foam_thick + c.notch))
    |> move (-(g_foam_thick + c.notch)) 0
    |> move 0 (-(c.top_width - c.notch - c.notch))
    |> move (g_foam_thick + c.notch) 0
    |> move 0 (-(g_foam_thick + c.notch))
    |> pen_up

/- End caps. -/

def get_end_bounds_h (c : CaseSpec) : ℚ × ℚ :=
  (c.top_width + g_foam_thick * 2, c.height)

def draw_end_h (x y : ℚ) (c : CaseSpec) (s : DrawingState) : DrawingState :=
  s |> warp x y
    |> pen_down
    |> move (c.top_width + g_foam_thick * 2) 0
    |> move (-((c.top_width - c.bottom_width) / 2)) c.height
    |> move (-(c.bottom_width + g_foam_thick * 2)) 0
    |> move (-((c.top_width - c.bottom_width) / 2)) (-c.height)
    |> pen_up

/- Sides. -/

def get_side_bounds_h (c : CaseSpec) : ℚ × ℚ :=
  (c.top_len + g_foam_thick * 2, c.height)

def draw_side_h (x y : ℚ) (c : CaseSpec) (s : DrawingState) : DrawingState :=
  s |> warp x y
    |> pen_down
    |> move (c.top_len + g_foam_thick * 2) 0
    |> move (-((c.top_len - c.bottom_len) / 2)) c.height
    |> move (-(c.bottom_len + g_foam_thick * 2)) 0
    |> move (-((c.top_len - c.bottom_len) / 2)) (-c.height)
    |> pen_up

/- Bottom. -/

def get_bottom_bounds_h (c : CaseSpec) : ℚ × ℚ :=
  (c.bottom_len + g_foam_thick * 2, c.bottom_width + g_foam_thick * 2)

/-- `draw_bottom_h(x, y, case, center_cutout=False)`.  `margin = 6` is the
additional inside margin of the cutout. -/
def draw_bottom_h (x y : ℚ) (c : CaseSpec) (s : DrawingState)
    (center_cutout : Bool := false) : DrawingState :=
  let margin : ℚ := 6
  let s1 := s |> warp x y
    |> pen_down
    |> move (c.bottom_len + g_foam_thick * 2) 0
    |> move 0 (c.bottom_width + g_foam_thick * 2)
    |> move (-(c.bottom_len + g_foam_thick * 2)) 0
    |> move 0 (-(c.bottom_width + g_foam_thick * 2))
  let s2 :=
    if center_cutout then
      s1 |> warp (x + g_foam_thick + margin) (y + g_foam_thick + margin)
        |> move (c.bottom_len - margin * 2) 0
        |> move 0 (c.bottom_width - margin * 2)
        |> move (-(c.bottom_len - margin * 2)) 0
        |> move 0 (-(c.bottom_width - margin * 2))
    else s1
  pen_up s2

/- Rendering to pages.  `render` shells out to `rsvg-convert`; its
observable effect here is the pair of files written, recorded by base
name.  The `__main__` block is modelled by `run_case`; `MainState`
threads the mutable globals plus the observable logs: the rendered file
base names, the sequence of panel-drawing calls (`panels`), and a
snapshot of the drawing state after each `start_drawing` (`page_starts`). -/

inductive PanelKind where
  | top
  | endcap
  | side
  | bottomPanel
deriving DecidableEq, Repr

structure PanelCall where
  kind : PanelKind
  x : ℚ
  y : ℚ
  page : ℕ
  cutout : Bool
deriving DecidableEq, Repr

structure MainState where
  ds : DrawingState
  rendered : List String
  panels : List PanelCall
  page_starts : List DrawingState
deriving DecidableEq, Repr

def initMainState : MainState :=
  { ds := initDrawingState, rendered := [], panels := [], page_starts := [] }

/-- `start_drawing(case, page)`: replaces the drawing with a fresh empty
drawing of the same (fixed) size, warps to `(5, 10)` and writes the page
title.  The title lookup `g_cases[case][0]` raises `KeyError` on an
unknown case name; the error carries the state at the raise point. -/
def start_drawing (case : String) (page : ℕ) (s : DrawingState) :
    Except (String × DrawingState) DrawingState :=
  let s1 := warp 5 10 { s with segments := [], texts := [] }
  match g_cases case with
  | none => .error ("KeyError: " ++ case, s1)
  | some c =>
      .ok (text ("EVA 6mm foam templates for " ++ c.desc ++ ", pg " ++ toString page) s1)

/-- `start_drawing` lifted to `MainState`, snapshotting the fresh page. -/
def start_page (case : String) (page : ℕ) (m : MainState) :
    Except (String × MainState) MainState :=
  match start_drawing case page m.ds with
  | .error (e, ds1) => .error (e, { m with ds := ds1 })
  | .ok ds1 => .ok { m with ds := ds1, page_starts := m.page_starts ++ [ds1] }

/-- `render(basename)`: writes `basename.svg` and converts it to
`basename.pdf`; recorded as the base name. -/
def render (basename : String) (m : MainState) : MainState :=
  { m with rendered := m.rendered ++ [basename] }

def end_drawing (case : String) (page : ℕ) (m : MainState) : MainState :=
  render (case ++ "_p" ++ toString page) { m with ds := draw_ruler m.ds }

def next_drawing (case : String) (page : ℕ) (m : MainState) :
    Except (String × MainState) MainState :=
  start_page case (page + 1) (end_drawing case page m)

/-- One panel-drawing statement of `__main__`: applies the draw function to
the drawing and logs the call (kind, arguments, current page). -/
def draw_panel (k : PanelKind) (x y : ℚ) (page : ℕ) (cutout : Bool)
    (f : DrawingState → DrawingState) (m : MainState) : MainState :=
  { m with ds := f m.ds, panels := m.panels ++ [⟨k, x, y, page, cutout⟩] }

/-- One page-fitting block of `__main__`:
`if y + h >= bottom() - 20: next_drawing(case, page); page += 1; y = 15`. -/
def fit_block (case : String) (h : ℚ) (page : ℕ) (y : ℚ) (m : MainState) :
    Except (String × MainState) (MainState × ℕ × ℚ) :=
  if y + h ≥ bottom - 20 then do
    let m1 ← next_drawing case page m
    pure (m1, page + 1, 15)
  else pure (m, page, y)

/-- `case = "1590A-tayda"; if len(sys.argv) > 1: case = sys.argv[-1]`.
`argv` includes the program name in position 0, as in Python. -/
def pick_case (argv : List String) : String :=
  if argv.length > 1 then argv.getLastD "1590A-tayda" else "1590A-tayda"

/-- The `__main__` block for a given case name.  Each bounds/draw call in
the source re-performs the `g_cases[case]` lookup; once the lookup inside
the initial `start_drawing` has succeeded those lookups cannot fail, so
the `CaseSpec` is taken once via the same lookup. -/
def run_case (case : String) : Except (String × MainState) MainState := do
  let m0 ← start_page case 1 initMainState
  match g_cases case with
  | none => .error ("KeyError: " ++ case, m0)
  | some c =>
    let x : ℚ := 5
    let top_bounds := get_top_bounds_h c
    let end_bounds := get_end_bounds_h c
    let side_bounds := get_side_bounds_h c
    let bottom_bounds := get_bottom_bounds_h c
    let m1 := draw_panel .top x 15 1 false (draw_top_h x 15 c) m0
    let y1 := 15 + top_bounds.2 + 5
    let (m2, page2, y2) ← fit_block case end_bounds.2 1 y1 m1
    let m2a := draw_panel .endcap x y2 page2 false (draw_end_h x y2 c) m2
    let y2a := y2 + end_bounds.2 + 5
    let (m3, page3, y3) ← fit_block case end_bounds.2 page2 y2a m2a
    let m3a := draw_panel .endcap x y3 page3 false (draw_end_h x y3 c) m3
    let y3a := y3 + end_bounds.2 + 5
    let (m4, page4, y4) ← fit_block case side_bounds.2 page3 y3a m3a
    let m4a := draw_panel .side x y4 page4 false (draw_side_h x y4 c) m4
    let y4a := y4 + side_bounds.2 + 5
    let (m5, page5, y5) ← fit_block case side_bounds.2 page4 y4a m4a
    let m5a := draw_panel .side x y5 page5 false (draw_side_h x y5 c) m5
    let y5a := y5 + side_bounds.2 + 5
    let (m6, page6, y6) ← fit_block case bottom_bounds.2 page5 y5a m5a
    let m6a := draw_panel .bottomPanel x y6 page6 true
      (fun s => draw_bottom_h x y6 c s true) m6
    let y6a := y6 + bottom_bounds.2 + 5
    let (m7, page7, y7) ← fit_block case bottom_bounds.2 page6 y6a m6a
    let m7a := draw_panel .bottomPanel x y7 page7 true
      (fun s => draw_bottom_h x y7 c s true) m7
    let y7a := y7 + bottom_bounds.2 + 5
    let (m8, page8, y8) ← fit_block case bottom_bounds.2 page7 y7a m7a
    let m8a := draw_panel .bottomPanel x y8 page8 false
      (fun s => draw_bottom_h x y8 c s) m8
    pure (end_drawing case page8 m8a)

/-- The whole program, from the command line. -/
def main_run (argv : List String) : Except (String × MainState) MainState :=
  run_case (pick_case argv)

/- Observations used by the statements. -/

/-- The segments appended between state `s` and a later state `s'`. -/
def newSegs (s s' : DrawingState) : List Segment :=
  s'.segments.drop s.segments.length

/-- Sum of the displacements of a list of segments. -/
def deltaSum (l : List Segment) : ℚ × ℚ :=
  l.foldl (fun a seg => (a.1 + seg.delta.1, a.2 + seg.delta.2)) (0, 0)

/-- Page and vertical offset of each logged panel call, in order. -/
def placements (m : MainState) : List (ℕ × ℚ) :=
  m.panels.map (fun p => (p.page, p.y))

/-- Kind, horizontal position and cutout flag of a logged panel call. -/
def panel_sig (p : PanelCall) : PanelKind × ℚ × Bool :=
  (p.kind, p.x, p.cutout)

/-- The heights `bounds[1]` consumed by the eight panel statements of
`__main__`, in program order. -/
def panel_heights (c : CaseSpec) : List ℚ :=
  [(get_top_bounds_h c).2,
   (get_end_bounds_h c).2, (get_end_bounds_h c).2,
   (get_side_bounds_h c).2, (get_side_bounds_h c).2,
   (get_bottom_bounds_h c).2, (get_bottom_bounds_h c).2, (get_bottom_bounds_h c).2]

/-- One placement step as `__main__` performs it: the overflow test with
`≥` against `bottom() - 20`, page bump with reset to 15, placement, and
advance by the height plus the 5 mm gap. -/
def layout_step (h : ℚ) (acc : List (ℕ × ℚ) × ℕ × ℚ) : List (ℕ × ℚ) × ℕ × ℚ :=
  if acc.2.2 + h ≥ bottom - 20 then
    (acc.1 ++ [(acc.2.1 + 1, 15)], acc.2.1 + 1, 15 + h + 5)
  else
    (acc.1 ++ [(acc.2.1, acc.2.2)], acc.2.1, acc.2.2 + h + 5)

/-- The page/offset layout `__main__` produces: the top panel is placed at
`(1, 15)` unconditionally, the remaining seven panels each go through a
fitting block. -/
def code_layout (c : CaseSpec) : List (ℕ × ℚ) :=
  (layout_step (get_bottom_bounds_h c).2
    (layout_step (get_bottom_bounds_h c).2
      (layout_step (get_bottom_bounds_h c).2
        (layout_step (get_side_bounds_h c).2
          (layout_step (get_side_bounds_h c).2
            (layout_step (get_end_bounds_h c).2
              (layout_step (get_end_bounds_h c).2
                ([(1, 15)], 1, 15 + (get_top_bounds_h c).2 + 5)))))))).1

/-- Modelled from the spec: "a simple greedy page-packer that starts a new
page when the running vertical offset plus the next panel's height would
exceed the printable area" — the printable area being the page height
minus the 20 mm ruler reserve, the cursor resetting to 15 on a new page
and advancing by the panel height plus a 5 mm gap after each panel.
Every panel, the first included, is tested, and "would exceed" is a
strict comparison. -/
def greedy_spec_layout (hs : List ℚ) : List (ℕ × ℚ) :=
  (hs.foldl
    (fun acc h =>
      let fitted :=
        if acc.2.2 + h > g_size_mm.2 - 20 then ((acc.2.1 + 1 : ℕ), (15 : ℚ))
        else (acc.2.1, acc.2.2)
      (acc.1 ++ [fitted], fitted.1, fitted.2 + h + 5))
    ([], 1, 15)).1

/- Projection lemmas for the low-level operations. -/

@[simp] lemma pen_down_size (s : DrawingState) : (pen_down s).size_mm = s.size_mm := rfl

@[simp] lemma pen_up_size (s : DrawingState) : (pen_up s).size_mm = s.size_mm := rfl

@[simp] lemma warp_size (x y : ℚ) (s : DrawingState) : (warp x y s).size_mm = s.size_mm := rfl

@[simp] lemma text_size (t : String) (s : DrawingState) : (text t s).size_mm = s.size_mm := rfl

@[simp] lemma draw_line_size (a b dx dy : ℚ) (s : DrawingState) :
    (draw_line a b dx dy s).size_mm = s.size_mm := rfl

@[simp] lemma move_size (dx dy : ℚ) (s : DrawingState) :
    (move dx dy s).size_mm = s.size_mm := by
  simp [move, draw_line, apply_ite]

@[simp] lemma pen_down_pen (s : DrawingState) : (pen_down s).pen_is_down = true := rfl

@[simp] lemma pen_up_pen (s : DrawingState) : (pen_up s).pen_is_down = false := rfl

@[simp] lemma warp_pen (x y : ℚ) (s : DrawingState) :
    (warp x y s).pen_is_down = s.pen_is_down := rfl

@[simp] lemma text_pen (t : String) (s : DrawingState) :
    (text t s).pen_is_down = s.pen_is_down := rfl

@[simp] lemma draw_line_pen (a b dx dy : ℚ) (s : DrawingState) :
    (draw_line a b dx dy s).pen_is_down = s.pen_is_down := rfl

@[simp] lemma move_pen (dx dy : ℚ) (s : DrawingState) :
    (move dx dy s).pen_is_down = s.pen_is_down := by
  simp [move, draw_line, apply_ite]

@[simp] lemma warp_segments (x y : ℚ) (s : DrawingState) :
    (warp x y s).segments = s.segments := rfl

@[simp] lemma text_segments (t : String) (s : DrawingState) :
    (text t s).segments = s.segments := rfl

@[simp] lemma pen_down_segments (s : DrawingState) : (pen_down s).segments = s.segments := rfl

@[simp] lemma pen_up_segments (s : DrawingState) : (pen_up s).segments = s.segments := rfl

@[simp] lemma pen_down_position (s : DrawingState) :
    (pen_down s).position_mm = s.position_mm := rfl

@[simp] lemma pen_up_position (s : DrawingState) :
    (pen_up s).position_mm = s.position_mm := rfl

@[simp] lemma warp_position (x y : ℚ) (s : DrawingState) :
    (warp x y s).position_mm = (x, y) := rfl

@[simp] lemma text_position (t : String) (s : DrawingState) :
    (text t s).position_mm = s.position_mm := rfl

@[simp] lemma move_position (dx dy : ℚ) (s : DrawingState) :
    (move dx dy s).position_mm = (s.position_mm.1 + dx, s.position_mm.2 + dy) := by
  simp [move, draw_line, apply_ite]

lemma move_segments_up (dx dy : ℚ) (s : DrawingState) (h : s.pen_is_down = false) :
    (move dx dy s).segments = s.segments := by
  simp [move, h]

lemma move_segments_down (dx dy : ℚ) (s : DrawingState) (h : s.pen_is_down = true) :
    (move dx dy s).segments =
      s.segments ++ [⟨s.position_mm, (dx, dy)⟩] := by
  simp [move, h, draw_line]

/- Effect lemmas: each panel-drawing function written out as the record it
produces — final pen position, pen flag, and the segments it appends. -/

lemma draw_end_h_eq (x y : ℚ) (c : CaseSpec) (s : DrawingState) :
    draw_end_h x y c s =
      { s with
        position_mm := (x, y)
        pen_is_down := false
        segments := s.segments ++
          [⟨(x, y), (c.top_width + g_foam_thick * 2, 0)⟩,
           ⟨(x + (c.top_width + g_foam_thick * 2), y),
            (-((c.top_width - c.bottom_width) / 2), c.height)⟩,
           ⟨(x + (c.top_width + g_foam_thick * 2) - (c.top_width - c.bottom_width) / 2,
             y + c.height),
            (-(c.bottom_width + g_foam_thick * 2), 0)⟩,
           ⟨(x + (c.top_width + g_foam_thick * 2) - (c.top_width - c.bottom_width) / 2
              - (c.bottom_width + g_foam_thick * 2), y + c.height),
            (-((c.top_width - c.bottom_width) / 2), -c.height)⟩] } := by
  simp [draw_end_h, move, warp, pen_down, pen_up, draw_line, Segment.mk.injEq, Prod.mk.injEq]
  repeat' apply And.intro
  all_goals ring

lemma draw_side_h_eq (x y : ℚ) (c : CaseSpec) (s : DrawingState) :
    draw_side_h x y c s =
      { s with
        position_mm := (x, y)
        pen_is_down := false
        segments := s.segments ++
          [⟨(x, y), (c.top_len + g_foam_thick * 2, 0)⟩,
           ⟨(x + (c.top_len + g_foam_thick * 2), y),
            (-((c.top_len - c.bottom_len) / 2), c.height)⟩,
           ⟨(x + (c.top_len + g_foam_thick * 2) - (c.top_len - c.bottom_len) / 2,
             y + c.height),
            (-(c.bottom_len + g_foam_thick * 2), 0)⟩,
           ⟨(x + (c.top_len + g_foam_thick * 2) - (c.top_len - c.bottom_len) / 2
              - (c.bottom_len + g_foam_thick * 2), y + c.height),
            (-((c.top_len - c.bottom_len) / 2), -c.height)⟩] } := by
  simp [draw_side_h, move, warp, pen_down, pen_up, draw_line, Segment.mk.injEq, Prod.mk.injEq]
  repeat' apply And.intro
  all_goals ring

lemma draw_top_h_eq (x y : ℚ) (c : CaseSpec) (s : DrawingState)
    (hpen : s.pen_is_down = false) :
    draw_top_h x y c s =
      { s with
        position_mm := (x + (g_foam_thick + c.notch), y)
        pen_is_down := false
        segments := s.segments ++
          [⟨(x + (g_foam_thick + c.notch), y),
            (c.top_len - c.notch - c.notch, 0)⟩,
           ⟨(x + (g_foam_thick + c.notch) + (c.top_len - c.notch - c.notch), y),
            (0, g_foam_thick + c.notch)⟩,
           ⟨(x + (g_foam_thick + c.notch) + (c.top_len - c.notch - c.notch),
             y + (g_foam_thick + c.notch)),
            (g_foam_thick + c.notch, 0)⟩,
           ⟨(x + (g_foam_thick + c.notch) + (c.top_len - c.notch - c.notch)
              + (g_foam_thick + c.notch), y + (g_foam_thick + c.notch)),
            (0, c.top_width - c.notch - c.notch)⟩,
           ⟨(x + (g_foam_thick + c.notch) + (c.top_len - c.notch - c.notch)
              + (g_foam_thick + c.notch),
             y + (g_foam_thick + c.notch) + (c.top_width - c.notch - c.notch)),
            (-(g_foam_thick + c.notch), 0)⟩,
           ⟨(x + (g_foam_thick + c.notch) + (c.top_len - c.notch - c.notch),
             y + (g_foam_thick + c.notch) + (c.top_width - c.notch - c.notch)),
            (0, g_foam_thick + c.notch)⟩,
           ⟨(x + (g_foam_thick + c.notch) + (c.top_len - c.notch - c.notch),
             y + (g_foam_thick + c.notch) + (c.top_width - c.notch - c.notch)
              + (g_foam_thick + c.notch)),
            (-(c.top_len - c.notch - c.notch), 0)⟩,
           ⟨(x + (g_foam_thick + c.notch),
             y + (g_foam_thick + c.notch) + (c.top_width - c.notch - c.notch)
              + (g_foam_thick + c.notch)),
            (0, -(g_foam_thick + c.notch))⟩,
           ⟨(x + (g_foam_thick + c.notch),
             y + (g_foam_thick + c.notch) + (c.top_width - c.notch - c.notch)),
            (-(g_foam_thick + c.notch), 0)⟩,
           ⟨(x, y + (g_foam_thick + c.notch) + (c.top_width - c.notch - c.notch)),
            (0, -(c.top_width - c.notch - c.notch))⟩,
           ⟨(x, y + (g_foam_thick + c.notch)),
            (g_foam_thick + c.notch, 0)⟩,
           ⟨(x + (g_foam_thick + c.notch), y + (g_foam_thick + c.notch)),
            (0, -(g_foam_thick + c.notch))⟩] } := by
  simp [draw_top_h, move, warp, pen_down, pen_up, draw_line, hpen,
    Segment.mk.injEq, Prod.mk.injEq]
  repeat' apply And.intro
  all_goals ring

lemma draw_bottom_h_false_eq (x y : ℚ) (c : CaseSpec) (s : DrawingState) :
    draw_bottom_h x y c s false =
      { s with
        position_mm := (x, y)
        pen_is_down := false
        segments := s.segments ++
          [⟨(x, y), (c.bottom_len + g_foam_thick * 2, 0)⟩,
           ⟨(x + (c.bottom_len + g_foam_thick * 2), y),
            (0, c.bottom_width + g_foam_thick * 2)⟩,
           ⟨(x + (c.bottom_len + g_foam_thick * 2),
             y + (c.bottom_width + g_foam_thick * 2)),
            (-(c.bottom_len + g_foam_thick * 2), 0)⟩,
           ⟨(x, y + (c.bottom_width + g_foam_thick * 2)),
            (0, -(c.bottom_width + g_foam_thick * 2))⟩] } := by
  simp [draw_bottom_h, move, warp, pen_down, pen_up, draw_line,
    Segment.mk.injEq, Prod.mk.injEq]
  repeat' apply And.intro
  all_goals ring

lemma draw_bottom_h_true_eq (x y : ℚ) (c : CaseSpec) (s : DrawingState) :
    draw_bottom_h x y c s true =
      { s with
        position_mm := (x + g_foam_thick + 6, y + g_foam_thick + 6)
        pen_is_down := false
        segments := s.segments ++
          [⟨(x, y), (c.bottom_len + g_foam_thick * 2, 0)⟩,
           ⟨(x + (c.bottom_len + g_foam_thick * 2), y),
            (0, c.bottom_width + g_foam_thick * 2)⟩,
           ⟨(x + (c.bottom_len + g_foam_thick * 2),
             y + (c.bottom_width + g_foam_thick * 2)),
            (-(c.bottom_len + g_foam_thick * 2), 0)⟩,
           ⟨(x, y + (c.bottom_width + g_foam_thick * 2)),
            (0, -(c.bottom_width + g_foam_thick * 2))⟩,
           ⟨(x + g_foam_thick + 6, y + g_foam_thick + 6),
            (c.bottom_len - 12, 0)⟩,
           ⟨(x + g_foam_thick + 6 + (c.bottom_len - 12), y + g_foam_thick + 6),
            (0, c.bottom_width - 12)⟩,
           ⟨(x + g_foam_thick + 6 + (c.bottom_len - 12),
             y + g_foam_thick + 6 + (c.bottom_width - 12)),
            (-(c.bottom_len - 12), 0)⟩,
           ⟨(x + g_foam_thick + 6, y + g_foam_thick + 6 + (c.bottom_width - 12)),
            (0, -(c.bottom_width - 12))⟩] } := by
  simp [draw_bottom_h, move, warp, pen_down, pen_up, draw_line,
    Segment.mk.injEq, Prod.mk.injEq]
  repeat' apply And.intro
  all_goals ring

/-- The `"1590B"` entry of the case table, used as a concrete instance. -/
def case1590B : CaseSpec :=
  ⟨"Hammond 1590B", 112.4, 60.5, 110.7, 58.7, 31.1, 10⟩

lemma g_cases_1590B : g_cases "1590B" = some case1590B := rfl

/-- C2 (counterexample): the claim that every bounds function enlarges both
the width and the height direction by twice the foam thickness fails at
the table entry `"1590B"`: `get_end_bounds_h` returns the case height
unchanged as its height component, and the height is not equal to itself
plus twice the (nonzero) foam thickness. -/
theorem C2_counterexample_end_bounds :
    g_cases "1590B" = some case1590B ∧
    (get_end_bounds_h case1590B).2 = case1590B.height ∧
    (get_end_bounds_h case1590B).2 ≠ case1590B.height + 2 * g_foam_thick := by
  refine ⟨g_cases_1590B, rfl, ?_⟩
  norm_num [get_end_bounds_h, case1590B, g_foam_thick]

/-- C2 (amended): for every case, the top and bottom bounds enlarge both
dimensions by twice the foam thickness, while the end-cap and side bounds
enlarge only the width component by twice the foam thickness and return
the case height unchanged as the height component. -/
theorem C2_bounds_foam_margin (c : CaseSpec) :
    get_top_bounds_h c = (c.top_len + 2 * g_foam_thick, c.top_width + 2 * g_foam_thick) ∧
    get_end_bounds_h c = (c.top_width + 2 * g_foam_thick, c.height) ∧
    get_side_bounds_h c = (c.top_len + 2 * g_foam_thick, c.height) ∧
    get_bottom_bounds_h c = (c.bottom_len + 2 * g_foam_thick, c.bottom_width + 2 * g_foam_thick) := by
  refine ⟨?_, ?_, ?_, ?_⟩ <;>
    simp [get_top_bounds_h, get_end_bounds_h, get_side_bounds_h, get_bottom_bounds_h,
      Prod.mk.injEq] <;> ring

/-- C3: for every case and start point, each panel-drawing operation emits
closed polygons: the displacements of the segments it appends sum to
`(0, 0)` (for the bottom panel with cutout, the outer and inner polygons
each separately sum to `(0, 0)`), and the pen position at `pen_up` equals
the first vertex of the outline being drawn at that moment. -/
theorem C3_closed_polygons (x y : ℚ) (c : CaseSpec) (s : DrawingState)
    (hpen : s.pen_is_down = false) :
    (deltaSum (newSegs s (draw_top_h x y c s)) = (0, 0) ∧
      (newSegs s (draw_top_h x y c s)).head?.map Segment.origin
        = some (draw_top_h x y c s).position_mm) ∧
    (deltaSum (newSegs s (draw_end_h x y c s)) = (0, 0) ∧
      (newSegs s (draw_end_h x y c s)).head?.map Segment.origin
        = some (draw_end_h x y c s).position_mm) ∧
    (deltaSum (newSegs s (draw_side_h x y c s)) = (0, 0) ∧
      (newSegs s (draw_side_h x y c s)).head?.map Segment.origin
        = some (draw_side_h x y c s).position_mm) ∧
    (deltaSum (newSegs s (draw_bottom_h x y c s)) = (0, 0) ∧
      (newSegs s (draw_bottom_h x y c s)).head?.map Segment.origin
        = some (draw_bottom_h x y c s).position_mm) ∧
    (deltaSum (newSegs s (draw_bottom_h x y c s true)) = (0, 0) ∧
      deltaSum ((newSegs s (draw_bottom_h x y c s true)).take 4) = (0, 0) ∧
      deltaSum ((newSegs s (draw_bottom_h x y c s true)).drop 4) = (0, 0) ∧
      ((newSegs s (draw_bottom_h x y c s true)).drop 4).head?.map Segment.origin
        = some (draw_bottom_h x y c s true).position_mm) := by
  simp only [draw_top_h_eq x y c s hpen, draw_end_h_eq, draw_side_h_eq,
    draw_bottom_h_false_eq, draw_bottom_h_true_eq]
  simp [newSegs, deltaSum, List.drop_left, Prod.mk.injEq]
  repeat' apply And.intro
  all_goals ring

/-- Witness for C3 at case `"1590B"`, start point `(5, 15)` and the
start-up state (whose pen is up). -/
theorem C3_closed_polygons_witness :
    initDrawingState.pen_is_down = false ∧
    ((deltaSum (newSegs initDrawingState (draw_top_h 5 15 case1590B initDrawingState)) = (0, 0) ∧
      (newSegs initDrawingState (draw_top_h 5 15 case1590B initDrawingState)).head?.map Segment.origin
        = some (draw_top_h 5 15 case1590B initDrawingState).position_mm) ∧
    (deltaSum (newSegs initDrawingState (draw_end_h 5 15 case1590B initDrawingState)) = (0, 0) ∧
      (newSegs initDrawingState (draw_end_h 5 15 case1590B initDrawingState)).head?.map Segment.origin
        = some (draw_end_h 5 15 case1590B initDrawingState).position_mm) ∧
    (deltaSum (newSegs initDrawingState (draw_side_h 5 15 case1590B initDrawingState)) = (0, 0) ∧
      (newSegs initDrawingState (draw_side_h 5 15 case1590B initDrawingState)).head?.map Segment.origin
        = some (draw_side_h 5 15 case1590B initDrawingState).position_mm) ∧
    (deltaSum (newSegs initDrawingState (draw_bottom_h 5 15 case1590B initDrawingState)) = (0, 0) ∧
      (newSegs initDrawingState (draw_bottom_h 5 15 case1590B initDrawingState)).head?.map Segment.origin
        = some (draw_bottom_h 5 15 case1590B initDrawingState).position_mm) ∧
    (deltaSum (newSegs initDrawingState (draw_bottom_h 5 15 case1590B initDrawingState true)) = (0, 0) ∧
      deltaSum ((newSegs initDrawingState (draw_bottom_h 5 15 case1590B initDrawingState true)).take 4) = (0, 0) ∧
      deltaSum ((newSegs initDrawingState (draw_bottom_h 5 15 case1590B initDrawingState true)).drop 4) = (0, 0) ∧
      ((newSegs initDrawingState (draw_bottom_h 5 15 case1590B initDrawingState true)).drop 4).head?.map Segment.origin
        = some (draw_bottom_h 5 15 case1590B initDrawingState true).position_mm)) :=
  ⟨rfl, C3_closed_polygons 5 15 case1590B initDrawingState rfl⟩

/-- C4: for every case and start point, `draw_end_h` draws an isosceles
trapezoid: horizontal top edge of length `top_width + 2⬝foam`, slanted
side of horizontal run `(top_width - bottom_width)/2` dropping by the
case height, horizontal bottom edge of length `bottom_width + 2⬝foam`,
and the closing slanted side; `draw_side_h` draws the analogous trapezoid
with the lengths in place of the widths. -/
theorem C4_trapezoids (x y : ℚ) (c : CaseSpec) (s : DrawingState) :
    newSegs s (draw_end_h x y c s) =
      [⟨(x, y), (c.top_width + 2 * g_foam_thick, 0)⟩,
       ⟨(x + (c.top_width + 2 * g_foam_thick), y),
        (-((c.top_width - c.bottom_width) / 2), c.height)⟩,
       ⟨(x + (c.top_width + 2 * g_foam_thick) - (c.top_width - c.bottom_width) / 2,
         y + c.height),
        (-(c.bottom_width + 2 * g_foam_thick), 0)⟩,
       ⟨(x + (c.top_width + 2 * g_foam_thick) - (c.top_width - c.bottom_width) / 2
          - (c.bottom_width + 2 * g_foam_thick), y + c.height),
        (-((c.top_width - c.bottom_width) / 2), -c.height)⟩] ∧
    newSegs s (draw_side_h x y c s) =
      [⟨(x, y), (c.top_len + 2 * g_foam_thick, 0)⟩,
       ⟨(x + (c.top_len + 2 * g_foam_thick), y),
        (-((c.top_len - c.bottom_len) / 2), c.height)⟩,
       ⟨(x + (c.top_len + 2 * g_foam_thick) - (c.top_len - c.bottom_len) / 2,
         y + c.height),
        (-(c.bottom_len + 2 * g_foam_thick), 0)⟩,
       ⟨(x + (c.top_len + 2 * g_foam_thick) - (c.top_len - c.bottom_len) / 2
          - (c.bottom_len + 2 * g_foam_thick), y + c.height),
        (-((c.top_len - c.bottom_len) / 2), -c.height)⟩] := by
  simp only [draw_end_h_eq, draw_side_h_eq]
  simp [newSegs, List.drop_left, Segment.mk.injEq, Prod.mk.injEq]
  repeat' apply And.intro
  all_goals ring

/-- C5: for every case and start point, `draw_bottom_h` with
`center_cutout` true appends, after the outer rectangle, one inner closed
rectangle of width `bottom_len - 12` and height `bottom_width - 12` whose
first vertex is offset by `(foam + 6, foam + 6)` from `(x, y)`; with
`center_cutout` left at its default (false) the output is the outer
rectangle alone. -/
theorem C5_bottom_center_cutout (x y : ℚ) (c : CaseSpec) (s : DrawingState) :
    newSegs s (draw_bottom_h x y c s) =
      [⟨(x, y), (c.bottom_len + 2 * g_foam_thick, 0)⟩,
       ⟨(x + (c.bottom_len + 2 * g_foam_thick), y),
        (0, c.bottom_width + 2 * g_foam_thick)⟩,
       ⟨(x + (c.bottom_len + 2 * g_foam_thick),
         y + (c.bottom_width + 2 * g_foam_thick)),
        (-(c.bottom_len + 2 * g_foam_thick), 0)⟩,
       ⟨(x, y + (c.bottom_width + 2 * g_foam_thick)),
        (0, -(c.bottom_width + 2 * g_foam_thick))⟩] ∧
    newSegs s (draw_bottom_h x y c s true) =
      newSegs s (draw_bottom_h x y c s) ++
      [⟨(x + g_foam_thick + 6, y + g_foam_thick + 6),
        (c.bottom_len - 12, 0)⟩,
       ⟨(x + g_foam_thick + 6 + (c.bottom_len - 12), y + g_foam_thick + 6),
        (0, c.bottom_width - 12)⟩,
       ⟨(x + g_foam_thick + 6 + (c.bottom_len - 12),
         y + g_foam_thick + 6 + (c.bottom_width - 12)),
        (-(c.bottom_len - 12), 0)⟩,
       ⟨(x + g_foam_thick + 6, y + g_foam_thick + 6 + (c.bottom_width - 12)),
        (0, -(c.bottom_width - 12))⟩] := by
  simp only [draw_bottom_h_false_eq, draw_bottom_h_true_eq]
  simp [newSegs, List.drop_left, Segment.mk.injEq, Prod.mk.injEq]
  all_goals ring

/-- C8: `move(dx, dy)` advances the pen position by `(dx, dy)`; it appends
exactly one segment (from the old position, with displacement `(dx, dy)`)
when the pen is down and leaves the drawing unchanged when the pen is up;
the pen flag (and everything else) is unchanged. -/
theorem C8_move_semantics (dx dy : ℚ) (s : DrawingState) :
    (move dx dy s).position_mm = (s.position_mm.1 + dx, s.position_mm.2 + dy) ∧
    (move dx dy s).pen_is_down = s.pen_is_down ∧
    (move dx dy s).segments =
      (if s.pen_is_down then s.segments ++ [⟨s.position_mm, (dx, dy)⟩]
       else s.segments) ∧
    (move dx dy s).texts = s.texts ∧
    (move dx dy s).size_mm = s.size_mm := by
  cases h : s.pen_is_down <;>
    simp [move, draw_line, h]

/-- C10: every high-level drawing operation ends with `pen_up`, so the pen
flag is false on return from each of them; `warp` never appends segments,
and `move` from a pen-up state appends none either. -/
theorem C10_ops_end_pen_up (w h x y dx dy a b : ℚ) (c : CaseSpec) (cut : Bool)
    (s : DrawingState) (hpen : s.pen_is_down = false) :
    (draw_box w h s).pen_is_down = false ∧
    (draw_top_h x y c s).pen_is_down = false ∧
    (draw_end_h x y c s).pen_is_down = false ∧
    (draw_side_h x y c s).pen_is_down = false ∧
    (draw_bottom_h x y c s cut).pen_is_down = false ∧
    (warp a b s).segments = s.segments ∧
    (move dx dy s).segments = s.segments :=
  ⟨rfl, rfl, rfl, rfl, rfl, rfl, move_segments_up dx dy s hpen⟩

/-- Witness for C10 at concrete arguments and the start-up state. -/
theorem C10_ops_end_pen_up_witness :
    initDrawingState.pen_is_down = false ∧
    ((draw_box 10 5 initDrawingState).pen_is_down = false ∧
     (draw_top_h 5 15 case1590B initDrawingState).pen_is_down = false ∧
     (draw_end_h 5 15 case1590B initDrawingState).pen_is_down = false ∧
     (draw_side_h 5 15 case1590B initDrawingState).pen_is_down = false ∧
     (draw_bottom_h 5 15 case1590B initDrawingState true).pen_is_down = false ∧
     (warp 5 10 initDrawingState).segments = initDrawingState.segments ∧
     (move 10 0 initDrawingState).segments = initDrawingState.segments) :=
  ⟨rfl, C10_ops_end_pen_up 10 5 5 15 10 0 5 10 case1590B true initDrawingState rfl⟩

/- Size and pen-flag lemmas for the high-level operations. -/

lemma draw_box_size (w h : ℚ) (s : DrawingState) : (draw_box w h s).size_mm = s.size_mm := by
  simp [draw_box]

lemma ruler_boxes_size (n : ℕ) (s : DrawingState) :
    (ruler_boxes n s).size_mm = s.size_mm := by
  induction n generalizing s with
  | zero => rfl
  | succ n ih => simp only [ruler_boxes]; rw [ih]; simp [draw_box]

lemma ruler_boxes_pen (n : ℕ) (s : DrawingState) (h : s.pen_is_down = false) :
    (ruler_boxes n s).pen_is_down = false := by
  induction n generalizing s with
  | zero => exact h
  | succ n ih => simp only [ruler_boxes]; exact ih _ rfl

lemma draw_ruler_size (s : DrawingState) : (draw_ruler s).size_mm = s.size_mm := by
  simp only [draw_ruler]
  rw [ruler_boxes_size]
  simp

lemma draw_ruler_pen (s : DrawingState) (h : s.pen_is_down = false) :
    (draw_ruler s).pen_is_down = false := by
  simp only [draw_ruler]
  exact ruler_boxes_pen 14 _ (by simp [h])

lemma draw_top_h_size (x y : ℚ) (c : CaseSpec) (s : DrawingState) :
    (draw_top_h x y c s).size_mm = s.size_mm := by
  simp [draw_top_h]

lemma draw_end_h_size (x y : ℚ) (c : CaseSpec) (s : DrawingState) :
    (draw_end_h x y c s).size_mm = s.size_mm := by
  simp [draw_end_h]

lemma draw_side_h_size (x y : ℚ) (c : CaseSpec) (s : DrawingState) :
    (draw_side_h x y c s).size_mm = s.size_mm := by
  simp [draw_side_h]

lemma draw_bottom_h_size (x y : ℚ) (c : CaseSpec) (s : DrawingState) (cut : Bool) :
    (draw_bottom_h x y c s cut).size_mm = s.size_mm := by
  cases cut <;> simp [draw_bottom_h]

/- The per-page reset property and the run invariant. -/

/-- What C7 asserts of the drawing state at the start of every page: an
empty fresh drawing, pen warped to `(5, 10)`, pen up, the fixed page
size, and exactly the page title placed at `(5, 10)`. -/
def page_start_ok (s : DrawingState) : Prop :=
  s.segments = [] ∧ s.position_mm = (5, 10) ∧ s.pen_is_down = false ∧
  s.size_mm = g_size_mm ∧ s.texts.map Prod.fst = [(5, 10)]

/-- Run invariant: every page-start snapshot is a proper reset, the page
size is unchanged, and the pen is up between statements. -/
def RunInv (m : MainState) : Prop :=
  (∀ s ∈ m.page_starts, page_start_ok s) ∧
  m.ds.size_mm = g_size_mm ∧ m.ds.pen_is_down = false

lemma RunInv_init : RunInv initMainState := by
  refine ⟨?_, rfl, rfl⟩
  intro s hs
  simp [initMainState] at hs

lemma start_page_eq (case : String) (c : CaseSpec) (page : ℕ) (m : MainState)
    (hc : g_cases case = some c) :
    start_page case page m =
      .ok { m with
            ds := text ("EVA 6mm foam templates for " ++ c.desc ++ ", pg " ++ toString page)
                (warp 5 10 { m.ds with segments := [], texts := [] }),
            page_starts := m.page_starts ++
              [text ("EVA 6mm foam templates for " ++ c.desc ++ ", pg " ++ toString page)
                (warp 5 10 { m.ds with segments := [], texts := [] })] } := by
  unfold start_page start_drawing
  rw [hc]

lemma start_state_ok (s : DrawingState) (t : String) (hpen : s.pen_is_down = false)
    (hsize : s.size_mm = g_size_mm) :
    page_start_ok (text t (warp 5 10 { s with segments := [], texts := [] })) := by
  simp [page_start_ok, text, warp, hpen, hsize]

lemma RunInv_after_start (m : MainState) (hInv : RunInv m) (t : String) :
    RunInv { m with
             ds := text t (warp 5 10 { m.ds with segments := [], texts := [] }),
             page_starts := m.page_starts ++
               [text t (warp 5 10 { m.ds with segments := [], texts := [] })] } := by
  obtain ⟨hps, hsize, hpen⟩ := hInv
  refine ⟨?_, ?_, ?_⟩
  · intro s hs
    rcases List.mem_append.1 hs with h | h
    · exact hps s h
    · rw [List.mem_singleton] at h
      subst h
      exact start_state_ok m.ds t hpen hsize
  · simpa using hsize
  · simpa using hpen

lemma end_drawing_ds (case : String) (page : ℕ) (m : MainState) :
    (end_drawing case page m).ds = draw_ruler m.ds := by
  simp [end_drawing, render]

lemma end_drawing_page_starts (case : String) (page : ℕ) (m : MainState) :
    (end_drawing case page m).page_starts = m.page_starts := by
  simp [end_drawing, render]

lemma end_drawing_panels (case : String) (page : ℕ) (m : MainState) :
    (end_drawing case page m).panels = m.panels := by
  simp [end_drawing, render]

lemma RunInv_end_drawing (case : String) (page : ℕ) (m : MainState) (hInv : RunInv m) :
    RunInv (end_drawing case page m) := by
  obtain ⟨hps, hsize, hpen⟩ := hInv
  refine ⟨?_, ?_, ?_⟩
  · rw [end_drawing_page_starts]; exact hps
  · rw [end_drawing_ds, draw_ruler_size]; exact hsize
  · rw [end_drawing_ds]; exact draw_ruler_pen m.ds hpen

lemma RunInv_draw_panel (k : PanelKind) (x y : ℚ) (page : ℕ) (cut : Bool)
    (f : DrawingState → DrawingState) (m : MainState)
    (hf_size : (f m.ds).size_mm = m.ds.size_mm)
    (hf_pen : (f m.ds).pen_is_down = false)
    (hInv : RunInv m) : RunInv (draw_panel k x y page cut f m) := by
  obtain ⟨hps, hsize, hpen⟩ := hInv
  refine ⟨hps, ?_, hf_pen⟩
  show (f m.ds).size_mm = g_size_mm
  rw [hf_size]; exact hsize

lemma placements_draw_panel (k : PanelKind) (x y : ℚ) (page : ℕ) (cut : Bool)
    (f : DrawingState → DrawingState) (m : MainState) :
    placements (draw_panel k x y page cut f m) = placements m ++ [(page, y)] := by
  simp [placements, draw_panel]

lemma panels_draw_panel (k : PanelKind) (x y : ℚ) (page : ℕ) (cut : Bool)
    (f : DrawingState → DrawingState) (m : MainState) :
    (draw_panel k x y page cut f m).panels = m.panels ++ [⟨k, x, y, page, cut⟩] := rfl

lemma start_page_ok (case : String) (c : CaseSpec) (page : ℕ) (m : MainState)
    (hc : g_cases case = some c) (hInv : RunInv m) :
    ∃ m1, start_page case page m = .ok m1 ∧ RunInv m1 ∧
      m1.panels = m.panels ∧ m1.rendered = m.rendered :=
  ⟨_, start_page_eq case c page m hc, RunInv_after_start m hInv _, rfl, rfl⟩

lemma next_drawing_ok (case : String) (c : CaseSpec) (page : ℕ) (m : MainState)
    (hc : g_cases case = some c) (hInv : RunInv m) :
    ∃ m1, next_drawing case page m = .ok m1 ∧ RunInv m1 ∧ m1.panels = m.panels := by
  obtain ⟨m1, hm1, hInv1, hpan1, _⟩ :=
    start_page_ok case c (page + 1) (end_drawing case page m) hc
      (RunInv_end_drawing case page m hInv)
  exact ⟨m1, hm1, hInv1, hpan1.trans (end_drawing_panels case page m)⟩

/-- Simulation of one fitting block of `__main__` against `layout_step`:
the block succeeds, leaves the logged panels and placements unchanged,
preserves the invariant, and the placement it sets up for the following
panel (plus the cursor advance) is exactly one `layout_step`. -/
lemma main_step (case : String) (c : CaseSpec) (hc : g_cases case = some c)
    (h : ℚ) (page : ℕ) (y : ℚ) (m : MainState) (hInv : RunInv m) :
    ∃ m1 page1 y1,
      fit_block case h page y m = .ok (m1, page1, y1) ∧
      RunInv m1 ∧ m1.panels = m.panels ∧
      (placements m1 ++ [(page1, y1)], page1, y1 + h + 5)
        = layout_step h (placements m, page, y) := by
  by_cases hcond : y + h ≥ bottom - 20
  · obtain ⟨m1, hm1, hInv1, hpan1⟩ := next_drawing_ok case c page m hc hInv
    have hplm : placements m1 = placements m := by
      unfold placements; rw [hpan1]
    refine ⟨m1, page + 1, 15, ?_, hInv1, hpan1, ?_⟩
    · dsimp only [fit_block]
      rw [if_pos hcond]
      rw [hm1]
      rfl
    · dsimp only [layout_step]
      rw [if_pos hcond, hplm]
  · refine ⟨m, page, y, ?_, hInv, rfl, ?_⟩
    · dsimp only [fit_block]
      rw [if_neg hcond]
      rfl
    · dsimp only [layout_step]
      rw [if_neg hcond]

lemma exc_ok_bind {e a b : Type} (x : a) (f : a → Except e b) :
    (Except.ok x : Except e a) >>= f = f x := rfl

/-- Structure of a full run on a case that is in the table: the run
succeeds; its placements are exactly the `layout_step` chain of
`code_layout`; the eight panel calls have the fixed kinds, horizontal
position 5 and cutout flags in program order; every page-start snapshot
is a proper reset; and the page size never changes. -/
lemma run_case_structure (case : String) (c : CaseSpec) (hc : g_cases case = some c) :
    ∃ m, run_case case = .ok m ∧
      placements m = code_layout c ∧
      m.panels.map panel_sig =
        [(PanelKind.top, 5, false), (PanelKind.endcap, 5, false), (PanelKind.endcap, 5, false),
         (PanelKind.side, 5, false), (PanelKind.side, 5, false),
         (PanelKind.bottomPanel, 5, true), (PanelKind.bottomPanel, 5, true),
         (PanelKind.bottomPanel, 5, false)] ∧
      (∀ s ∈ m.page_starts, page_start_ok s) ∧
      m.ds.size_mm = g_size_mm := by
  obtain ⟨m0, hm0, hInv0, hpan0, _⟩ := start_page_ok case c 1 initMainState hc RunInv_init
  -- panel 1: the top panel, drawn unconditionally at (5, 15) on page 1
  have hInv1 : RunInv (draw_panel PanelKind.top 5 15 1 false (draw_top_h 5 15 c) m0) :=
    RunInv_draw_panel PanelKind.top 5 15 1 false _ m0 (draw_top_h_size 5 15 c m0.ds) rfl hInv0
  have hplm1 : placements (draw_panel PanelKind.top 5 15 1 false (draw_top_h 5 15 c) m0)
      = [(1, 15)] := by
    rw [placements_draw_panel]
    unfold placements
    rw [hpan0]
    rfl
  have hpans1 : (draw_panel PanelKind.top 5 15 1 false (draw_top_h 5 15 c) m0).panels
      = [⟨PanelKind.top, 5, 15, 1, false⟩] := by
    rw [panels_draw_panel, hpan0]
    rfl
  -- panel 2: first end cap
  obtain ⟨m2, p2, y2, hfit2, hInv2, hpan2, hlay2⟩ :=
    main_step case c hc (get_end_bounds_h c).2 1 (15 + (get_top_bounds_h c).2 + 5)
      (draw_panel PanelKind.top 5 15 1 false (draw_top_h 5 15 c) m0) hInv1
  rw [hplm1] at hlay2
  rw [← placements_draw_panel PanelKind.endcap 5 y2 p2 false (draw_end_h 5 y2 c) m2] at hlay2
  have hInv2a : RunInv (draw_panel PanelKind.endcap 5 y2 p2 false (draw_end_h 5 y2 c) m2) :=
    RunInv_draw_panel PanelKind.endcap 5 y2 p2 false _ m2 (draw_end_h_size 5 y2 c m2.ds) rfl hInv2
  have hpans2 : (draw_panel PanelKind.endcap 5 y2 p2 false (draw_end_h 5 y2 c) m2).panels
      = [⟨PanelKind.top, 5, 15, 1, false⟩, ⟨PanelKind.endcap, 5, y2, p2, false⟩] := by
    rw [panels_draw_panel, hpan2, hpans1]
    rfl
  -- panel 3: second end cap
  obtain ⟨m3, p3, y3, hfit3, hInv3, hpan3, hlay3⟩ :=
    main_step case c hc (get_end_bounds_h c).2 p2 (y2 + (get_end_bounds_h c).2 + 5)
      (draw_panel PanelKind.endcap 5 y2 p2 false (draw_end_h 5 y2 c) m2) hInv2a
  rw [hlay2] at hlay3
  rw [← placements_draw_panel PanelKind.endcap 5 y3 p3 false (draw_end_h 5 y3 c) m3] at hlay3
  have hInv3a : RunInv (draw_panel PanelKind.endcap 5 y3 p3 false (draw_end_h 5 y3 c) m3) :=
    RunInv_draw_panel PanelKind.endcap 5 y3 p3 false _ m3 (draw_end_h_size 5 y3 c m3.ds) rfl hInv3
  have hpans3 : (draw_panel PanelKind.endcap 5 y3 p3 false (draw_end_h 5 y3 c) m3).panels
      = [⟨PanelKind.top, 5, 15, 1, false⟩, ⟨PanelKind.endcap, 5, y2, p2, false⟩,
         ⟨PanelKind.endcap, 5, y3, p3, false⟩] := by
    rw [panels_draw_panel, hpan3, hpans2]
    rfl
  -- panel 4: first side
  obtain ⟨m4, p4, y4, hfit4, hInv4, hpan4, hlay4⟩ :=
    main_step case c hc (get_side_bounds_h c).2 p3 (y3 + (get_end_bounds_h c).2 + 5)
      (draw_panel PanelKind.endcap 5 y3 p3 false (draw_end_h 5 y3 c) m3) hInv3a
  rw [hlay3] at hlay4
  rw [← placements_draw_panel PanelKind.side 5 y4 p4 false (draw_side_h 5 y4 c) m4] at hlay4
  have hInv4a : RunInv (draw_panel PanelKind.side 5 y4 p4 false (draw_side_h 5 y4 c) m4) :=
    RunInv_draw_panel PanelKind.side 5 y4 p4 false _ m4 (draw_side_h_size 5 y4 c m4.ds) rfl hInv4
  have hpans4 : (draw_panel PanelKind.side 5 y4 p4 false (draw_side_h 5 y4 c) m4).panels
      = [⟨PanelKind.top, 5, 15, 1, false⟩, ⟨PanelKind.endcap, 5, y2, p2, false⟩,
         ⟨PanelKind.endcap, 5, y3, p3, false⟩, ⟨PanelKind.side, 5, y4, p4, false⟩] := by
    rw [panels_draw_panel, hpan4, hpans3]
    rfl
  -- panel 5: second side
  obtain ⟨m5, p5, y5, hfit5, hInv5, hpan5, hlay5⟩ :=
    main_step case c hc (get_side_bounds_h c).2 p4 (y4 + (get_side_bounds_h c).2 + 5)
      (draw_panel PanelKind.side 5 y4 p4 false (draw_side_h 5 y4 c) m4) hInv4a
  rw [hlay4] at hlay5
  rw [← placements_draw_panel PanelKind.side 5 y5 p5 false (draw_side_h 5 y5 c) m5] at hlay5
  have hInv5a : RunInv (draw_panel PanelKind.side 5 y5 p5 false (draw_side_h 5 y5 c) m5) :=
    RunInv_draw_panel PanelKind.side 5 y5 p5 false _ m5 (draw_side_h_size 5 y5 c m5.ds) rfl hInv5
  have hpans5 : (draw_panel PanelKind.side 5 y5 p5 false (draw_side_h 5 y5 c) m5).panels
      = [⟨PanelKind.top, 5, 15, 1, false⟩, ⟨PanelKind.endcap, 5, y2, p2, false⟩,
         ⟨PanelKind.endcap, 5, y3, p3, false⟩, ⟨PanelKind.side, 5, y4, p4, false⟩,
         ⟨PanelKind.side, 5, y5, p5, false⟩] := by
    rw [panels_draw_panel, hpan5, hpans4]
    rfl
  -- panel 6: first bottom, with cutout
  obtain ⟨m6, p6, y6, hfit6, hInv6, hpan6, hlay6⟩ :=
    main_step case c hc (get_bottom_bounds_h c).2 p5 (y5 + (get_side_bounds_h c).2 + 5)
      (draw_panel PanelKind.side 5 y5 p5 false (draw_side_h 5 y5 c) m5) hInv5a
  rw [hlay5] at hlay6
  rw [← placements_draw_panel PanelKind.bottomPanel 5 y6 p6 true
    (fun s => draw_bottom_h 5 y6 c s true) m6] at hlay6
  have hInv6a : RunInv (draw_panel PanelKind.bottomPanel 5 y6 p6 true
      (fun s => draw_bottom_h 5 y6 c s true) m6) :=
    RunInv_draw_panel PanelKind.bottomPanel 5 y6 p6 true _ m6
      (draw_bottom_h_size 5 y6 c m6.ds true) rfl hInv6
  have hpans6 : (draw_panel PanelKind.bottomPanel 5 y6 p6 true
      (fun s => draw_bottom_h 5 y6 c s true) m6).panels
      = [⟨PanelKind.top, 5, 15, 1, false⟩, ⟨PanelKind.endcap, 5, y2, p2, false⟩,
         ⟨PanelKind.endcap, 5, y3, p3, false⟩, ⟨PanelKind.side, 5, y4, p4, false⟩,
         ⟨PanelKind.side, 5, y5, p5, false⟩, ⟨PanelKind.bottomPanel, 5, y6, p6, true⟩] := by
    rw [panels_draw_panel, hpan6, hpans5]
    rfl
  -- panel 7: second bottom, with cutout
  obtain ⟨m7, p7, y7, hfit7, hInv7, hpan7, hlay7⟩ :=
    main_step case c hc (get_bottom_bounds_h c).2 p6 (y6 + (get_bottom_bounds_h c).2 + 5)
      (draw_panel PanelKind.bottomPanel 5 y6 p6 true
        (fun s => draw_bottom_h 5 y6 c s true) m6) hInv6a
  rw [hlay6] at hlay7
  rw [← placements_draw_panel PanelKind.bottomPanel 5 y7 p7 true
    (fun s => draw_bottom_h 5 y7 c s true) m7] at hlay7
  have hInv7a : RunInv (draw_panel PanelKind.bottomPanel 5 y7 p7 true
      (fun s => draw_bottom_h 5 y7 c s true) m7) :=
    RunInv_draw_panel PanelKind.bottomPanel 5 y7 p7 true _ m7
      (draw_bottom_h_size 5 y7 c m7.ds true) rfl hInv7
  have hpans7 : (draw_panel PanelKind.bottomPanel 5 y7 p7 true
      (fun s => draw_bottom_h 5 y7 c s true) m7).panels
      = [⟨PanelKind.top, 5, 15, 1, false⟩, ⟨PanelKind.endcap, 5, y2, p2, false⟩,
         ⟨PanelKind.endcap, 5, y3, p3, false⟩, ⟨PanelKind.side, 5, y4, p4, false⟩,
         ⟨PanelKind.side, 5, y5, p5, false⟩, ⟨PanelKind.bottomPanel, 5, y6, p6, true⟩,
         ⟨PanelKind.bottomPanel, 5, y7, p7, true⟩] := by
    rw [panels_draw_panel, hpan7, hpans6]
    rfl
  -- panel 8: third bottom, no cutout
  obtain ⟨m8, p8, y8, hfit8, hInv8, hpan8, hlay8⟩ :=
    main_step case c hc (get_bottom_bounds_h c).2 p7 (y7 + (get_bottom_bounds_h c).2 + 5)
      (draw_panel PanelKind.bottomPanel 5 y7 p7 true
        (fun s => draw_bottom_h 5 y7 c s true) m7) hInv7a
  rw [hlay7] at hlay8
  rw [← placements_draw_panel PanelKind.bottomPanel 5 y8 p8 false
    (fun s => draw_bottom_h 5 y8 c s) m8] at hlay8
  have hInv8a : RunInv (draw_panel PanelKind.bottomPanel 5 y8 p8 false
      (fun s => draw_bottom_h 5 y8 c s) m8) :=
    RunInv_draw_panel PanelKind.bottomPanel 5 y8 p8 false _ m8
      (draw_bottom_h_size 5 y8 c m8.ds false) rfl hInv8
  have hpans8 : (draw_panel PanelKind.bottomPanel 5 y8 p8 false
      (fun s => draw_bottom_h 5 y8 c s) m8).panels
      = [⟨PanelKind.top, 5, 15, 1, false⟩, ⟨PanelKind.endcap, 5, y2, p2, false⟩,
         ⟨PanelKind.endcap, 5, y3, p3, false⟩, ⟨PanelKind.side, 5, y4, p4, false⟩,
         ⟨PanelKind.side, 5, y5, p5, false⟩, ⟨PanelKind.bottomPanel, 5, y6, p6, true⟩,
         ⟨PanelKind.bottomPanel, 5, y7, p7, true⟩,
         ⟨PanelKind.bottomPanel, 5, y8, p8, false⟩] := by
    rw [panels_draw_panel, hpan8, hpans7]
    rfl
  -- assemble the final state
  have hfin := RunInv_end_drawing case p8
    (draw_panel PanelKind.bottomPanel 5 y8 p8 false (fun s => draw_bottom_h 5 y8 c s) m8) hInv8a
  refine ⟨end_drawing case p8
    (draw_panel PanelKind.bottomPanel 5 y8 p8 false (fun s => draw_bottom_h 5 y8 c s) m8),
    ?_, ?_, ?_, hfin.1, hfin.2.1⟩
  · simp [run_case, exc_ok_bind, hm0, hc, hfit2, hfit3, hfit4, hfit5, hfit6, hfit7, hfit8]
  · show placements _ = code_layout c
    unfold placements
    rw [end_drawing_panels]
    unfold code_layout
    exact congrArg Prod.fst hlay8
  · show (end_drawing case p8 _).panels.map panel_sig = _
    rw [end_drawing_panels, hpans8]
    rfl

lemma exc_error_bind {e a b : Type} (x : e) (f : a → Except e b) :
    (Except.error x : Except e a) >>= f = .error x := rfl

/-- Any value successfully looked up in `g_cases` is one of the seven
table entries. -/
lemma g_cases_cases (case : String) (c : CaseSpec) (hc : g_cases case = some c) :
    c = ⟨"Hammond 1590B", 112.4, 60.5, 110.7, 58.7, 31.1, 10⟩ ∨
    c = ⟨"Hammond 1590B (Tayda clone)", 112.4, 60.4, 110.4, 58.7, 31.1, 10⟩ ∨
    c = ⟨"Hammond 1590BB", 119.9, 94.3, 117.0, 91.5, 34.1, 10⟩ ∨
    c = ⟨"Hammond 1590BB (Tayda clone)", 120.2, 95.0, 118.9, 93.7, 37.3, 10⟩ ∨
    c = ⟨"Hammond 1590Y", 92.2, 92.2, 90.0, 90.0, 41.8, 10⟩ ∨
    c = ⟨"Hammond 1550P", 80.2, 55.0, 79.4, 54.4, 25.4, 10⟩ ∨
    c = ⟨"Hammond 1590A (Tayda clone)", 92.4, 38.3, 91.4, 37.3, 31.1, 10⟩ := by
  simp only [g_cases, g_cases_list, List.lookup] at hc
  split at hc
  · exact Or.inl (Option.some.inj hc).symm
  split at hc
  · exact Or.inr (Or.inl (Option.some.inj hc).symm)
  split at hc
  · exact Or.inr (Or.inr (Or.inl (Option.some.inj hc).symm))
  split at hc
  · exact Or.inr (Or.inr (Or.inr (Or.inl (Option.some.inj hc).symm)))
  split at hc
  · exact Or.inr (Or.inr (Or.inr (Or.inr (Or.inl (Option.some.inj hc).symm))))
  split at hc
  · exact Or.inr (Or.inr (Or.inr (Or.inr (Or.inr (Or.inl (Option.some.inj hc).symm)))))
  split at hc
  · exact Or.inr (Or.inr (Or.inr (Or.inr (Or.inr (Or.inr (Option.some.inj hc).symm)))))
  · exact absurd hc (by simp)

/-- C1: for every case in the table, the page/offset placements of the run
are exactly those of the spec's greedy packer over the eight panel
heights: a new page starts exactly when the running vertical offset plus
the next panel's height would exceed the printable area (page height
minus the 20 mm ruler reserve), the cursor resets to 15 on a new page,
and advances by the panel height plus the 5 mm gap after each panel. -/
theorem C1_greedy_page_packing (case : String) (c : CaseSpec)
    (hc : g_cases case = some c) :
    ∃ m, run_case case = .ok m ∧
      placements m = greedy_spec_layout (panel_heights c) := by
  obtain ⟨m, hrun, hplace, _, _, _⟩ := run_case_structure case c hc
  refine ⟨m, hrun, ?_⟩
  rw [hplace]
  rcases g_cases_cases case c hc with rfl | rfl | rfl | rfl | rfl | rfl | rfl <;>
    norm_num [code_layout, greedy_spec_layout, panel_heights, layout_step,
      get_top_bounds_h, get_end_bounds_h, get_side_bounds_h, get_bottom_bounds_h,
      bottom, g_size_mm, in_to_mm, g_foam_thick, List.foldl]

/-- Witness for C1 at the table case `"1590B"`. -/
theorem C1_greedy_page_packing_witness :
    g_cases "1590B" = some case1590B ∧
    ∃ m, run_case "1590B" = .ok m ∧
      placements m = greedy_spec_layout (panel_heights case1590B) :=
  ⟨rfl, C1_greedy_page_packing "1590B" case1590B rfl⟩

/-- C6: a run for a case of the table draws exactly eight panel outlines in
the fixed order top, end cap, end cap, side, side, bottom (cutout),
bottom (cutout), bottom (plain), every one at horizontal position 5. -/
theorem C6_eight_panels_in_order (case : String) (c : CaseSpec)
    (hc : g_cases case = some c) :
    ∃ m, run_case case = .ok m ∧
      m.panels.map panel_sig =
        [(PanelKind.top, 5, false), (PanelKind.endcap, 5, false), (PanelKind.endcap, 5, false),
         (PanelKind.side, 5, false), (PanelKind.side, 5, false),
         (PanelKind.bottomPanel, 5, true), (PanelKind.bottomPanel, 5, true),
         (PanelKind.bottomPanel, 5, false)] := by
  obtain ⟨m, hrun, _, hsig, _, _⟩ := run_case_structure case c hc
  exact ⟨m, hrun, hsig⟩

/-- Witness for C6 at the table case `"1590B"`. -/
theorem C6_eight_panels_in_order_witness :
    g_cases "1590B" = some case1590B ∧
    ∃ m, run_case "1590B" = .ok m ∧
      m.panels.map panel_sig =
        [(PanelKind.top, 5, false), (PanelKind.endcap, 5, false), (PanelKind.endcap, 5, false),
         (PanelKind.side, 5, false), (PanelKind.side, 5, false),
         (PanelKind.bottomPanel, 5, true), (PanelKind.bottomPanel, 5, true),
         (PanelKind.bottomPanel, 5, false)] :=
  ⟨rfl, C6_eight_panels_in_order "1590B" case1590B rfl⟩

/-- C7: at the start of every page of a run, the drawing state is reset:
fresh empty drawing of the same fixed page size (7.5 in by 10 in), pen
warped to `(5, 10)` where the page title is placed, pen up; the page size
is never changed. -/
theorem C7_page_state_reset (case : String) (c : CaseSpec)
    (hc : g_cases case = some c) :
    g_size_mm = (in_to_mm 7.5, in_to_mm 10) ∧
    ∃ m, run_case case = .ok m ∧
      (∀ s ∈ m.page_starts,
        s.segments = [] ∧ s.position_mm = (5, 10) ∧ s.pen_is_down = false ∧
        s.size_mm = g_size_mm ∧ s.texts.map Prod.fst = [(5, 10)]) ∧
      m.ds.size_mm = g_size_mm := by
  obtain ⟨m, hrun, _, _, hps, hsz⟩ := run_case_structure case c hc
  exact ⟨rfl, m, hrun, hps, hsz⟩

/-- Witness for C7 at the table case `"1590B"`. -/
theorem C7_page_state_reset_witness :
    g_size_mm = (in_to_mm 7.5, in_to_mm 10) ∧
    ∃ m, run_case "1590B" = .ok m ∧
      (∀ s ∈ m.page_starts,
        s.segments = [] ∧ s.position_mm = (5, 10) ∧ s.pen_is_down = false ∧
        s.size_mm = g_size_mm ∧ s.texts.map Prod.fst = [(5, 10)]) ∧
      m.ds.size_mm = g_size_mm :=
  C7_page_state_reset "1590B" case1590B rfl

/-- C9: when the case name picked from the command line (last argument,
defaulting to `"1590A-tayda"`) is not a key of the table, the program
fails with the lookup error raised inside `start_drawing`, with no panel
drawn, no file rendered, and no line segment in the drawing. -/
theorem C9_unknown_case_fails (argv : List String)
    (h : g_cases (pick_case argv) = none) :
    ∃ em, main_run argv =
        .error ("KeyError: " ++ pick_case argv, em) ∧
      em.panels = [] ∧ em.rendered = [] ∧ em.ds.segments = [] := by
  refine ⟨{ initMainState with
            ds := warp 5 10 { initMainState.ds with segments := [], texts := [] } },
    ?_, rfl, rfl, rfl⟩
  simp [main_run, run_case, start_page, start_drawing, h, exc_error_bind]

/-- Witness for C9 at the unknown case name `"1590X"`. -/
theorem C9_unknown_case_fails_witness :
    g_cases (pick_case ["draw-templates.py", "1590X"]) = none ∧
    ∃ em, main_run ["draw-templates.py", "1590X"] =
        .error ("KeyError: " ++ pick_case ["draw-templates.py", "1590X"], em) ∧
      em.panels = [] ∧ em.rendered = [] ∧ em.ds.segments = [] :=
  ⟨rfl, C9_unknown_case_fails ["draw-templates.py", "1590X"] rfl⟩
